import Mathlib

/-!
Verification of the snapshot diff-and-reconciliation engine of
`spotify-serialize` against its natural-language specification.

The definitions below are a shallow embedding of the Python source:

* `src/spotify_serialize/commands/deserialize.py` (the Differ/Reconciler),
* `src/spotify_serialize/commands/serialize.py` (the Collector/Serializer),
* `src/spotify_serialize/schema.py` and `src/spotify_serialize/utils.py`.

Pure helper functions become Lean functions; the stateful interaction with
the remote Spotify service is modelled by explicit state passing over a
`SpotifyState` record together with a trace of the mutating API calls that
the code issues.  Python `set` iteration order is unspecified (it depends
on the hash seed), so every place where the code iterates over a `set` is
parameterized by an enumeration function `it` applied to a list holding
the set contents; the predicate `ValidSetIter` states exactly what Python
guarantees about the enumeration: it yields each element of the set
exactly once and nothing else, in an unspecified order.
-/

namespace SpotifySerialize

/-- Spotify resource identifier (`SpotifyID = str` in `schema.py` and
`utils.py`). -/
abbrev SpotifyID := String

/-- An enumeration function standing for iteration over a Python `set`
whose contents are the members of the given list. -/
abbrev PyIter := List SpotifyID → List SpotifyID

/-- The contract Python gives for iterating over a set: each member of
the set appears exactly once; the order is unspecified. -/
def ValidSetIter (it : PyIter) : Prop :=
  ∀ l : List SpotifyID, (it l).Nodup ∧ ∀ x, x ∈ it l ↔ x ∈ l

/-- One admissible enumeration: keep the first occurrence of each
element, in list order. -/
def dedupIter : PyIter := fun l => l.dedup

/-- Another admissible enumeration: first occurrences, in reverse
order. -/
def revDedupIter : PyIter := fun l => l.dedup.reverse

theorem dedupIter_valid : ValidSetIter dedupIter := by
  intro l
  refine ⟨l.nodup_dedup, fun x => ?_⟩
  exact List.mem_dedup

theorem revDedupIter_valid : ValidSetIter revDedupIter := by
  intro l
  refine ⟨List.nodup_reverse.mpr l.nodup_dedup, fun x => ?_⟩
  unfold revDedupIter
  rw [List.mem_reverse]
  exact List.mem_dedup

/-- `get_list_diff(list1, list2)` from `deserialize.py`:
`[item for item in (set(list2) - set(list1))]`.
The set difference `set(list2) - set(list1)` holds exactly the members
of `list2` that are not members of `list1`; the comprehension lists them
in set-iteration order, here `it`. -/
def get_list_diff (it : PyIter) (list1 list2 : List SpotifyID) :
    List SpotifyID :=
  it (list2.filter (fun x => decide (x ∉ list1)))

/-- `PlaylistState` from `utils.py`: a dataclass with optional id, name,
description, photo and a list of track IDs (all fields defaulted). -/
structure PlaylistState where
  id : Option SpotifyID := none
  name : Option String := none
  description : Option String := none
  photo : Option String := none
  tracks : List SpotifyID := []
deriving DecidableEq

/-- `ChangeMode` from `deserialize.py`. -/
inductive ChangeMode where
  | CREATED
  | DELETED
  | MODIFIED
deriving DecidableEq

/-- `Delta` from `deserialize.py`: original and changed states plus the
additions and deletions computed in `__post_init__`. -/
structure Delta where
  original : PlaylistState
  changed : PlaylistState
  additions : List SpotifyID
  deletions : List SpotifyID
deriving DecidableEq

/-- `Delta.__post_init__`: `additions = get_list_diff(original.tracks,
changed.tracks)` and `deletions = get_list_diff(changed.tracks,
original.tracks)`. -/
def mkDelta (it : PyIter) (original changed : PlaylistState) : Delta :=
  { original := original
    changed := changed
    additions := get_list_diff it original.tracks changed.tracks
    deletions := get_list_diff it changed.tracks original.tracks }

/-- `SavedSongsDelta` adds nothing to `Delta`. -/
abbrev SavedSongsDelta := Delta

/-- `PlaylistDelta`: a `Delta` together with a `ChangeMode`. -/
structure PlaylistDelta where
  delta : Delta
  mode : ChangeMode
deriving DecidableEq

def mkPlaylistDelta (it : PyIter) (original changed : PlaylistState)
    (mode : ChangeMode) : PlaylistDelta :=
  { delta := mkDelta it original changed, mode := mode }

/-- A playlist as seen through the remote API (tekore `FullPlaylist`):
the fields the source reads are its id, name, description, first image
URL (`photo`), track IDs and owner ID. -/
structure FullPlaylistModel where
  id : SpotifyID
  name : String
  description : Option String
  photo : Option String
  tracks : List SpotifyID
  ownerId : SpotifyID
deriving DecidableEq

/-- The live Spotify library state touched by the code: the current
user ID, the saved (liked) track IDs, all playlists in the user listing
(owned and followed alike), and the stream of fresh playlist IDs the
remote service will assign to newly created playlists. -/
structure SpotifyState where
  userId : SpotifyID
  savedTracks : List SpotifyID
  playlists : List FullPlaylistModel
  freshIds : List SpotifyID
deriving DecidableEq

/-- The mutating API calls the deserializer can issue. -/
inductive Mutation where
  | savedTracksAdd (ids : List SpotifyID)
  | savedTracksDelete (ids : List SpotifyID)
  | playlistCreate (userId : SpotifyID) (name : String)
      (description : Option String) (isPublic : Bool)
  | playlistUnfollow (id : SpotifyID)
deriving DecidableEq

/-- Whether a mutation removes something from the live library. -/
def Mutation.isDestructive : Mutation → Bool
  | .savedTracksDelete _ => true
  | .playlistUnfollow _ => true
  | _ => false

/-- Effect of `spotify.saved_tracks_add(ids)`: the listed tracks become
saved; tracks already saved stay where they are. -/
def savedTracksAddApply (ids : List SpotifyID) (s : SpotifyState) :
    SpotifyState :=
  { s with savedTracks :=
      ids.filter (fun i => decide (i ∉ s.savedTracks)) ++ s.savedTracks }

/-- Effect of `spotify.saved_tracks_delete(ids)`: the listed tracks are
no longer saved. -/
def savedTracksDeleteApply (ids : List SpotifyID) (s : SpotifyState) :
    SpotifyState :=
  { s with savedTracks := s.savedTracks.filter (fun i => decide (i ∉ ids)) }

/-- Effect of `spotify.playlist_create(user_id, name, description,
public)`: the remote service assigns the next fresh ID and appends an
empty playlist owned by the user; the new playlist is returned. -/
def playlistCreateApply (name : String) (description : Option String)
    (s : SpotifyState) : SpotifyState × FullPlaylistModel :=
  let newId := s.freshIds.headD ""
  let p : FullPlaylistModel :=
    { id := newId, name := name, description := description,
      photo := none, tracks := [], ownerId := s.userId }
  ({ s with playlists := s.playlists ++ [p], freshIds := s.freshIds.tail },
   p)

/-- Effect of `spotify.playlist_unfollow(playlist_id)`: the playlist
leaves the user listing. -/
def playlistUnfollowApply (pid : SpotifyID) (s : SpotifyState) :
    SpotifyState :=
  { s with playlists := s.playlists.filter (fun p => decide (p.id ≠ pid)) }

/-- One owned-playlist entry of the library JSON the deserializer reads:
`model["id"]`, `model["name"]`, `model["description"]`,
`model["photo"]`, `model["tracks"]` (a list of track IDs). -/
structure BackupPlaylist where
  id : SpotifyID
  name : String
  description : Option String
  photo : Option String
  tracks : List SpotifyID
deriving DecidableEq

/-- The library JSON document shape the deserializer reads:
`library_json["saved"]` (track IDs),
`library_json["playlists"]["owned"]` (playlist dicts) and
`library_json["playlists"]["followed"]` (playlist IDs). -/
structure BackupLibrary where
  saved : List SpotifyID
  owned : List BackupPlaylist
  followed : List SpotifyID
deriving DecidableEq

/-- `Deserializer._get_saved_tracks_diff`: builds
`SavedSongsDelta(current, before)` where `current` is a `PlaylistState`
over the live saved-track IDs and `before` one over
`library_json["saved"]`; so `original := current` and
`changed := before`. -/
def getSavedTracksDiff (it : PyIter) (s : SpotifyState)
    (lib : BackupLibrary) : SavedSongsDelta :=
  mkDelta it { tracks := s.savedTracks } { tracks := lib.saved }

/-- `Deserializer._deserialize_saved_songs`: compute the saved-songs
delta, add the additions, and delete the deletions only under `hard`. -/
def deserializeSavedSongs (it : PyIter) (hard : Bool)
    (lib : BackupLibrary) (s : SpotifyState) :
    SavedSongsDelta × SpotifyState × List Mutation :=
  let delta := getSavedTracksDiff it s lib
  let s1 := savedTracksAddApply delta.additions s
  if hard then
    (delta, savedTracksDeleteApply delta.deletions s1,
     [.savedTracksAdd delta.additions, .savedTracksDelete delta.deletions])
  else
    (delta, s1, [.savedTracksAdd delta.additions])

/-- `Deserializer._get_library_playlists`: fetch every playlist of the
user listing and partition it by the test `full_playlist.id == user_id`
(the playlist ID itself, as written in the source, not the owner ID). -/
def getLibraryPlaylists (s : SpotifyState) :
    List FullPlaylistModel × List FullPlaylistModel :=
  (s.playlists.filter (fun p => decide (p.id = s.userId)),
   s.playlists.filter (fun p => decide (p.id ≠ s.userId)))

/-- `Deserializer._get_followed_diff`: set differences between the live
followed-playlist IDs and `library_json["playlists"]["followed"]`,
returned as lists of set members (before set iteration). -/
def getFollowedDiff (lib : BackupLibrary)
    (libraryFollowed : List FullPlaylistModel) :
    List SpotifyID × List SpotifyID :=
  let libraryFollows := libraryFollowed.map (fun p => p.id)
  ((libraryFollows.filter (fun x => decide (x ∉ lib.followed))),
   (lib.followed.filter (fun x => decide (x ∉ libraryFollows))))

/-- `Deserializer._get_playlist_diff` for one preserved playlist:
`original` pairs the backup metadata with the live track list, `changed`
pairs the live metadata with the backup track list; returns `None`
exactly when the two `PlaylistState`s are equal, otherwise a `MODIFIED`
delta.  No mutation is issued. -/
def getPlaylistDiff (it : PyIter) (backupPlaylist : BackupPlaylist)
    (livePlaylist : FullPlaylistModel) : Option PlaylistDelta :=
  let original : PlaylistState :=
    { id := some backupPlaylist.id, name := some backupPlaylist.name,
      description := backupPlaylist.description,
      photo := backupPlaylist.photo, tracks := livePlaylist.tracks }
  let changed : PlaylistState :=
    { id := some backupPlaylist.id, name := some livePlaylist.name,
      description := livePlaylist.description,
      photo := livePlaylist.photo, tracks := backupPlaylist.tracks }
  if original = changed then none
  else some (mkPlaylistDelta it original changed .MODIFIED)

/-- `Deserializer._restore_playlist`: create a playlist from the backup
entry (`playlist_create` with `public=True`); the snapshot track list is
recorded in the returned delta but never uploaded to the new playlist. -/
def restorePlaylist (it : PyIter) (jsonPlaylist : BackupPlaylist)
    (s : SpotifyState) : PlaylistDelta × SpotifyState × List Mutation :=
  let created := playlistCreateApply jsonPlaylist.name
    jsonPlaylist.description s
  let changed : PlaylistState :=
    { id := some created.2.id, name := some jsonPlaylist.name,
      description := jsonPlaylist.description, photo := none,
      tracks := jsonPlaylist.tracks }
  (mkPlaylistDelta it {} changed .CREATED, created.1,
   [.playlistCreate s.userId jsonPlaylist.name jsonPlaylist.description
      true])

/-- Fallback playlist model for a lookup that the calling context
guarantees to succeed. -/
def emptyFullPlaylist : FullPlaylistModel :=
  { id := "", name := "", description := none, photo := none,
    tracks := [], ownerId := "" }

/-- `spotify.playlist(playlist_id)`: fetch one playlist by ID from the
live state. -/
def fetchPlaylist (s : SpotifyState) (pid : SpotifyID) :
    FullPlaylistModel :=
  (s.playlists.find? (fun p => decide (p.id = pid))).getD
    emptyFullPlaylist

/-- `Deserializer._remove_playlist`: fetch the playlist, unfollow it,
and record a `DELETED` delta carrying its former contents. -/
def removePlaylist (it : PyIter) (pid : SpotifyID) (s : SpotifyState) :
    PlaylistDelta × SpotifyState × List Mutation :=
  let playlist := fetchPlaylist s pid
  let original : PlaylistState :=
    { id := some pid, name := some playlist.name,
      description := playlist.description, photo := playlist.photo,
      tracks := playlist.tracks }
  (mkPlaylistDelta it original {} .DELETED, playlistUnfollowApply pid s,
   [.playlistUnfollow pid])

/-- The dict `backup_owned = {model["id"]: model for model in ...}`:
lookup returns the last entry with the given id. -/
def backupOwnedLookup (owned : List BackupPlaylist) (pid : SpotifyID) :
    BackupPlaylist :=
  (owned.reverse.find? (fun p => decide (p.id = pid))).getD
    { id := pid, name := "", description := none, photo := none,
      tracks := [] }

/-- Accumulator threading deltas, live state and mutation trace through
the loops of `_deserialize_playlists`. -/
structure RunAcc where
  deltas : List PlaylistDelta
  state : SpotifyState
  trace : List Mutation
deriving DecidableEq

/-- One iteration of the loop restoring removed owned playlists. -/
def restoreStep (it : PyIter) (lib : BackupLibrary) (acc : RunAcc)
    (pid : SpotifyID) : RunAcc :=
  let step := restorePlaylist it (backupOwnedLookup lib.owned pid)
    acc.state
  { deltas := acc.deltas ++ [step.1], state := step.2.1,
    trace := acc.trace ++ step.2.2 }

/-- One iteration of the loop removing new owned playlists (hard mode
only). -/
def removeStep (it : PyIter) (acc : RunAcc) (pid : SpotifyID) : RunAcc :=
  let step := removePlaylist it pid acc.state
  { deltas := acc.deltas ++ [step.1], state := step.2.1,
    trace := acc.trace ++ step.2.2 }

/-- One iteration of the loop diffing preserved playlists. -/
def diffStep (it : PyIter) (lib : BackupLibrary) (acc : RunAcc)
    (pid : SpotifyID) : RunAcc :=
  match getPlaylistDiff it (backupOwnedLookup lib.owned pid)
      (fetchPlaylist acc.state pid) with
  | some d => { acc with deltas := acc.deltas ++ [d] }
  | none => acc

/-- `library_owned_ids`: IDs of the live playlists the (buggy)
partition classifies as owned. -/
def libraryOwnedIdsOf (s : SpotifyState) : List SpotifyID :=
  ((getLibraryPlaylists s).1).map (fun p => p.id)

/-- `backup_owned_ids`: the keys of the `backup_owned` dict. -/
def backupOwnedKeysOf (lib : BackupLibrary) : List SpotifyID :=
  (lib.owned.map (fun p => p.id)).dedup

/-- `new_playlist_ids = library_owned_ids - backup_owned_ids`. -/
def newPlaylistIdsOf (lib : BackupLibrary) (s : SpotifyState) :
    List SpotifyID :=
  (libraryOwnedIdsOf s).filter
    (fun x => decide (x ∉ backupOwnedKeysOf lib))

/-- `removed_playlist_ids = backup_owned_ids - library_owned_ids`. -/
def removedPlaylistIdsOf (lib : BackupLibrary) (s : SpotifyState) :
    List SpotifyID :=
  (backupOwnedKeysOf lib).filter
    (fun x => decide (x ∉ libraryOwnedIdsOf s))

/-- `preserved_playlist_ids = library_owned_ids ∩ backup_owned_ids`. -/
def preservedPlaylistIdsOf (lib : BackupLibrary) (s : SpotifyState) :
    List SpotifyID :=
  (libraryOwnedIdsOf s).filter
    (fun x => decide (x ∈ backupOwnedKeysOf lib))

/-- The accumulator after the followed-playlist bookkeeping: dummy
`CREATED` deltas for removed follows, and under `hard` dummy `DELETED`
deltas for new follows; no follow or unfollow call is issued here. -/
def followAcc (it : PyIter) (hard : Bool) (lib : BackupLibrary)
    (s : SpotifyState) : RunAcc :=
  let followDiff := getFollowedDiff lib (getLibraryPlaylists s).2
  let removedFollowDeltas := (it followDiff.2).map (fun pid =>
    mkPlaylistDelta it { id := some pid } { id := some pid } .CREATED)
  let newFollowDeltas := (it followDiff.1).map (fun pid =>
    mkPlaylistDelta it { id := some pid } { id := some pid } .DELETED)
  if hard then
    { deltas := removedFollowDeltas ++ newFollowDeltas, state := s,
      trace := [] }
  else
    { deltas := removedFollowDeltas, state := s, trace := [] }

/-- `Deserializer._deserialize_playlists`, faithfully following the
source: follow bookkeeping, restoration of owned playlists missing
live, removal (under `hard`) of live owned playlists missing from the
backup, and a `MODIFIED` delta for playlists present on both sides. -/
def deserializePlaylists (it : PyIter) (hard : Bool)
    (lib : BackupLibrary) (s : SpotifyState) : RunAcc :=
  let acc2 := (it (removedPlaylistIdsOf lib s)).foldl
    (restoreStep it lib) (followAcc it hard lib s)
  let acc3 :=
    if hard then
      (it (newPlaylistIdsOf lib s)).foldl (removeStep it) acc2
    else acc2
  (it (preservedPlaylistIdsOf lib s)).foldl (diffStep it lib) acc3

theorem followAcc_state (it : PyIter) (hard : Bool)
    (lib : BackupLibrary) (s : SpotifyState) :
    (followAcc it hard lib s).state = s := by
  cases hard <;> rfl

theorem followAcc_trace (it : PyIter) (hard : Bool)
    (lib : BackupLibrary) (s : SpotifyState) :
    (followAcc it hard lib s).trace = [] := by
  cases hard <;> rfl

/-- `LibraryDelta` from `deserialize.py` (presentation methods
omitted). -/
structure LibraryDelta where
  savedDelta : SavedSongsDelta
  playlistDeltas : List PlaylistDelta
deriving DecidableEq

/-- `Deserializer.deserialize_library`: saved songs first, then
playlists. -/
def deserializeLibrary (it : PyIter) (hard : Bool) (lib : BackupLibrary)
    (s : SpotifyState) : LibraryDelta × SpotifyState × List Mutation :=
  let saved := deserializeSavedSongs it hard lib s
  let playlists := deserializePlaylists it hard lib saved.2.1
  ({ savedDelta := saved.1, playlistDeltas := playlists.deltas },
   playlists.state, saved.2.2 ++ playlists.trace)

/-- Discriminant of the underlying item of a saved track: a music track
or a podcast episode (`type` in `schema.py`). -/
inductive TrackType where
  | track
  | episode
deriving DecidableEq

/-- A saved item as returned by the live API (tekore `SavedTrack`): the
deserializer reads only `saved_track.track.id`; the type and name are
carried here to express what the diff does and does not depend on. -/
structure LiveSavedTrack where
  id : SpotifyID
  type : TrackType
  name : String
deriving DecidableEq

/-- The saved-songs diff as computed from typed live items:
`_get_saved_tracks_diff` collapses each item to its bare
`saved_track.track.id` before diffing against
`library_json["saved"]`. -/
def savedTracksDiffOfItems (it : PyIter) (items : List LiveSavedTrack)
    (backupSaved : List SpotifyID) : SavedSongsDelta :=
  mkDelta it { tracks := items.map (fun t => t.id) }
    { tracks := backupSaved }

/-- `Serializer._serialize_playlists` from `serialize.py` partitions the
single paginated all-playlists listing by the test
`owner_id == user_id` where `owner_id = simple_playlist.owner.id`. -/
def serializePlaylistsPartition (userId : SpotifyID)
    (listing : List FullPlaylistModel) :
    List FullPlaylistModel × List FullPlaylistModel :=
  (listing.filter (fun p => decide (p.ownerId = userId)),
   listing.filter (fun p => decide (p.ownerId ≠ userId)))

/-- A JSON value, as far as the snapshot documents need. -/
inductive Json where
  | str (s : String)
  | num (n : Nat)
  | null
  | arr (items : List Json)
  | obj (fields : List (String × Json))

/-- Python `d[k]` on a JSON object: the value under the key, or a
`KeyError` naming the key; a `TypeError` when the value is not an
object. -/
def jsonKey (j : Json) (k : String) : Except String Json :=
  match j with
  | .obj fields =>
    match fields.lookup k with
    | some v => .ok v
    | none => .error ("KeyError: " ++ k)
  | _ => .error "TypeError: not a dict"

/-- A user profile as collected by the serializer. -/
structure UserModel where
  id : SpotifyID
  displayName : String
  numFollowers : Option Nat
deriving DecidableEq

/-- A track as collected by the serializer (after
`track_model_to_json`). -/
structure TrackModel where
  id : SpotifyID
  name : String
  artists : List String
  addedAt : Option String
  type : TrackType
deriving DecidableEq

/-- A playlist as collected by the serializer, with its owner. -/
structure CollectedPlaylist where
  id : SpotifyID
  name : String
  description : Option String
  tracks : List TrackModel
  owner : UserModel
deriving DecidableEq

/-- Everything `Serializer.serialize` collects before writing
`data.json`. -/
structure CollectedLibrary where
  user : UserModel
  likedSongs : List TrackModel
  ownedPlaylists : List CollectedPlaylist
  followedPlaylists : List CollectedPlaylist
deriving DecidableEq

/-- `user_model_to_json` from `serialize.py`. -/
def userToJson (u : UserModel) : Json :=
  .obj [("id", .str u.id), ("displayName", .str u.displayName),
        ("numFollowers",
          match u.numFollowers with
          | some n => .num n
          | none => .null)]

/-- The JSON written for one track (`track_model_to_json`): id, name,
artists, addedAt and the `"track"`/`"episode"` discriminant. -/
def trackToJson (t : TrackModel) : Json :=
  .obj [("id", .str t.id), ("name", .str t.name),
        ("artists", .arr (t.artists.map .str)),
        ("addedAt",
          match t.addedAt with
          | some s => .str s
          | none => .null),
        ("type",
          match t.type with
          | .track => .str "track"
          | .episode => .str "episode")]

/-- The JSON written for one playlist (`playlist_model_to_json`): id,
name, description and the track objects. -/
def playlistToJson (p : CollectedPlaylist) : Json :=
  .obj [("id", .str p.id), ("name", .str p.name),
        ("description",
          match p.description with
          | some s => .str s
          | none => .null),
        ("tracks", .arr (p.tracks.map trackToJson))]

/-- A followed playlist is the playlist JSON extended with an `owner`
field. -/
def followedPlaylistToJson (p : CollectedPlaylist) : Json :=
  .obj [("id", .str p.id), ("name", .str p.name),
        ("description",
          match p.description with
          | some s => .str s
          | none => .null),
        ("tracks", .arr (p.tracks.map trackToJson)),
        ("owner", userToJson p.owner)]

/-- The `json_data: SnapshotJSON` document assembled by
`Serializer.serialize` and written to `data.json`, with the four keys
`user`, `likedSongs`, `ownedPlaylists`, `followedPlaylists` from
`schema.py`. -/
def snapshotJson (lib : CollectedLibrary) : Json :=
  .obj [("user", userToJson lib.user),
        ("likedSongs", .arr (lib.likedSongs.map trackToJson)),
        ("ownedPlaylists", .arr (lib.ownedPlaylists.map playlistToJson)),
        ("followedPlaylists",
          .arr (lib.followedPlaylists.map followedPlaylistToJson))]

/-- The deserializer reads `library_json["saved"]`
(`_get_saved_tracks_diff`). -/
def deserializerReadSaved (j : Json) : Except String Json :=
  jsonKey j "saved"

/-- The deserializer reads `library_json["playlists"]["owned"]`
(`_deserialize_playlists`). -/
def deserializerReadOwned (j : Json) : Except String Json :=
  match jsonKey j "playlists" with
  | .ok v => jsonKey v "owned"
  | .error e => .error e

/-- The deserializer reads `library_json["playlists"]["followed"]`
(`_get_followed_diff`). -/
def deserializerReadFollowed (j : Json) : Except String Json :=
  match jsonKey j "playlists" with
  | .ok v => jsonKey v "followed"
  | .error e => .error e

/-- A Python runtime error relevant to the backup path. -/
inductive PyError where
  | typeError (message : String)
  | attributeError (message : String)
deriving DecidableEq

/-- The parameters of `Serializer.__init__` in `serialize.py` (after
`self`): `spotify` and `with_images`, both required. -/
def serializerInitParams : List String := ["spotify", "with_images"]

/-- The methods `class Serializer` defines in `serialize.py`. -/
def serializerMethods : List String :=
  ["serialize", "_serialize_profile", "_serialize_saved_songs",
   "_serialize_playlists"]

/-- Calling `Serializer(...)` with the given number of positional
arguments: Python raises `TypeError` unless every required parameter is
bound. -/
def callSerializerCtor (positionalArgs : Nat) : Except PyError Unit :=
  if positionalArgs < serializerInitParams.length then
    .error (.typeError "missing required positional argument")
  else .ok ()

/-- Attribute access `serializer.<name>`: Python raises
`AttributeError` when the class defines no such attribute. -/
def getSerializerAttr (name : String) : Except PyError Unit :=
  if name ∈ serializerMethods then .ok ()
  else .error (.attributeError name)

/-- `create_backup(Serializer(spotify))` from `deserialize.py`: the
constructor is called with one positional argument, then
`serializer.get_library_json()` is looked up. -/
def createBackup : Except PyError Unit := do
  let _ ← callSerializerCtor 1
  getSerializerAttr "get_library_json"

/-- `deserialize_command` (confirmation prompts taken as accepted): in
hard mode `create_backup` runs before the deserializer; an exception
there aborts the run before any mutation. -/
def deserializeCommand (it : PyIter) (hard : Bool) (lib : BackupLibrary)
    (s : SpotifyState) :
    Except PyError (LibraryDelta × SpotifyState × List Mutation) :=
  if hard then
    match createBackup with
    | .error e => .error e
    | .ok _ => .ok (deserializeLibrary it hard lib s)
  else .ok (deserializeLibrary it hard lib s)

/-- A directory path, as a list of path segments. -/
abbrev DirPath := List String

/-- The parent directory of a path. -/
def parentDir (p : DirPath) : DirPath := p.dropLast

/-- Filesystem errors raised by `Path.mkdir`. -/
inductive FsError where
  | fileExists
  | fileNotFound
deriving DecidableEq

/-- `Path.mkdir(parents=..., exist_ok=...)` over a directory set (the
root `[]` always exists): an existing target raises `FileExistsError`
unless `exist_ok`; a missing parent raises `FileNotFoundError` unless
`parents`. -/
def mkdir (fs : List DirPath) (p : DirPath) (parents existOk : Bool) :
    Except FsError (List DirPath) :=
  if p ∈ fs then
    if existOk then .ok fs else .error .fileExists
  else if parents ∨ parentDir p = [] ∨ parentDir p ∈ fs then
    .ok (p :: fs)
  else .error .fileNotFound

/-- The collection and write steps `Serializer.serialize` performs
after its directory setup. -/
inductive SerializeStep where
  | collectProfile
  | collectSavedSongs
  | collectPlaylists
  | writeTimestamp
  | writeDataJson
deriving DecidableEq

/-- The directory setup and collection sequence of
`Serializer.serialize` in `serialize.py`:
`output_dir.mkdir(exist_ok=True)` followed unconditionally by
`output_dir.mkdir(parents=True)` (without `exist_ok`), then the images
directory and the collection/write steps. -/
def serializerSerialize (fs : List DirPath) (outputDir : DirPath)
    (withImages : Bool) :
    Except FsError (List DirPath × List SerializeStep) :=
  match mkdir fs outputDir false true with
  | .error e => .error e
  | .ok fs1 =>
    match mkdir fs1 outputDir true false with
    | .error e => .error e
    | .ok fs2 =>
      match (if withImages then
          mkdir fs2 (outputDir ++ ["images"]) false false
        else .ok fs2) with
      | .error e => .error e
      | .ok fs3 =>
        .ok (fs3, [.collectProfile, .collectSavedSongs,
                   .collectPlaylists, .writeTimestamp, .writeDataJson])

/-! Helper lemmas shared by several claims. -/

theorem restoreStep_savedTracks (it : PyIter) (lib : BackupLibrary)
    (acc : RunAcc) (pid : SpotifyID) :
    (restoreStep it lib acc pid).state.savedTracks =
      acc.state.savedTracks := rfl

theorem restoreStep_userId (it : PyIter) (lib : BackupLibrary)
    (acc : RunAcc) (pid : SpotifyID) :
    (restoreStep it lib acc pid).state.userId = acc.state.userId := rfl

theorem removeStep_savedTracks (it : PyIter) (acc : RunAcc)
    (pid : SpotifyID) :
    (removeStep it acc pid).state.savedTracks =
      acc.state.savedTracks := rfl

theorem removeStep_userId (it : PyIter) (acc : RunAcc)
    (pid : SpotifyID) :
    (removeStep it acc pid).state.userId = acc.state.userId := rfl

theorem diffStep_state (it : PyIter) (lib : BackupLibrary)
    (acc : RunAcc) (pid : SpotifyID) :
    (diffStep it lib acc pid).state = acc.state := by
  unfold diffStep
  split <;> rfl

theorem diffStep_trace (it : PyIter) (lib : BackupLibrary)
    (acc : RunAcc) (pid : SpotifyID) :
    (diffStep it lib acc pid).trace = acc.trace := by
  unfold diffStep
  split <;> rfl

theorem foldl_restoreStep_savedTracks (it : PyIter)
    (lib : BackupLibrary) (l : List SpotifyID) (acc : RunAcc) :
    ((l.foldl (restoreStep it lib) acc).state).savedTracks =
      acc.state.savedTracks := by
  induction l generalizing acc with
  | nil => rfl
  | cons x xs ih =>
    rw [List.foldl_cons, ih (restoreStep it lib acc x),
      restoreStep_savedTracks]

theorem foldl_restoreStep_userId (it : PyIter) (lib : BackupLibrary)
    (l : List SpotifyID) (acc : RunAcc) :
    ((l.foldl (restoreStep it lib) acc).state).userId =
      acc.state.userId := by
  induction l generalizing acc with
  | nil => rfl
  | cons x xs ih =>
    rw [List.foldl_cons, ih (restoreStep it lib acc x),
      restoreStep_userId]

theorem foldl_removeStep_savedTracks (it : PyIter)
    (l : List SpotifyID) (acc : RunAcc) :
    ((l.foldl (removeStep it) acc).state).savedTracks =
      acc.state.savedTracks := by
  induction l generalizing acc with
  | nil => rfl
  | cons x xs ih =>
    rw [List.foldl_cons, ih (removeStep it acc x),
      removeStep_savedTracks]

theorem foldl_removeStep_userId (it : PyIter) (l : List SpotifyID)
    (acc : RunAcc) :
    ((l.foldl (removeStep it) acc).state).userId =
      acc.state.userId := by
  induction l generalizing acc with
  | nil => rfl
  | cons x xs ih =>
    rw [List.foldl_cons, ih (removeStep it acc x), removeStep_userId]

theorem foldl_diffStep_state (it : PyIter) (lib : BackupLibrary)
    (l : List SpotifyID) (acc : RunAcc) :
    (l.foldl (diffStep it lib) acc).state = acc.state := by
  induction l generalizing acc with
  | nil => rfl
  | cons x xs ih =>
    rw [List.foldl_cons, ih (diffStep it lib acc x), diffStep_state]

theorem foldl_diffStep_trace (it : PyIter) (lib : BackupLibrary)
    (l : List SpotifyID) (acc : RunAcc) :
    (l.foldl (diffStep it lib) acc).trace = acc.trace := by
  induction l generalizing acc with
  | nil => rfl
  | cons x xs ih =>
    rw [List.foldl_cons, ih (diffStep it lib acc x), diffStep_trace]

theorem restoreStep_playlists_mem (it : PyIter) (lib : BackupLibrary)
    (acc : RunAcc) (pid : SpotifyID) (p : FullPlaylistModel)
    (h : p ∈ acc.state.playlists) :
    p ∈ (restoreStep it lib acc pid).state.playlists := by
  show p ∈ acc.state.playlists ++ [_]
  exact List.mem_append_left _ h

theorem foldl_restoreStep_playlists_mem (it : PyIter)
    (lib : BackupLibrary) (l : List SpotifyID) (acc : RunAcc)
    (p : FullPlaylistModel) (h : p ∈ acc.state.playlists) :
    p ∈ ((l.foldl (restoreStep it lib) acc).state).playlists := by
  induction l generalizing acc with
  | nil => exact h
  | cons x xs ih =>
    rw [List.foldl_cons]
    exact ih (restoreStep it lib acc x)
      (restoreStep_playlists_mem it lib acc x p h)

theorem restoreStep_trace_mem (it : PyIter) (lib : BackupLibrary)
    (acc : RunAcc) (pid : SpotifyID) (m : Mutation)
    (h : m ∈ (restoreStep it lib acc pid).trace) :
    m ∈ acc.trace ∨ m.isDestructive = false := by
  rcases List.mem_append.mp h with h1 | h1
  · exact Or.inl h1
  · right
    rcases List.mem_singleton.mp h1 with rfl
    rfl

theorem foldl_restoreStep_trace_mem (it : PyIter)
    (lib : BackupLibrary) (l : List SpotifyID) (acc : RunAcc)
    (m : Mutation) (h : m ∈ (l.foldl (restoreStep it lib) acc).trace) :
    m ∈ acc.trace ∨ m.isDestructive = false := by
  induction l generalizing acc with
  | nil => exact Or.inl h
  | cons x xs ih =>
    rw [List.foldl_cons] at h
    rcases ih (restoreStep it lib acc x) h with h1 | h1
    · exact restoreStep_trace_mem it lib acc x m h1
    · exact Or.inr h1

theorem restoreStep_deltas_mem (it : PyIter) (lib : BackupLibrary)
    (acc : RunAcc) (pid : SpotifyID) (d : PlaylistDelta)
    (h : d ∈ acc.deltas) : d ∈ (restoreStep it lib acc pid).deltas :=
  List.mem_append_left _ h

theorem foldl_restoreStep_deltas_mem (it : PyIter)
    (lib : BackupLibrary) (l : List SpotifyID) (acc : RunAcc)
    (d : PlaylistDelta) (h : d ∈ acc.deltas) :
    d ∈ (l.foldl (restoreStep it lib) acc).deltas := by
  induction l generalizing acc with
  | nil => exact h
  | cons x xs ih =>
    rw [List.foldl_cons]
    exact ih (restoreStep it lib acc x)
      (restoreStep_deltas_mem it lib acc x d h)

theorem foldl_removeStep_deltas_mem (it : PyIter)
    (l : List SpotifyID) (acc : RunAcc) (d : PlaylistDelta)
    (h : d ∈ acc.deltas) :
    d ∈ (l.foldl (removeStep it) acc).deltas := by
  induction l generalizing acc with
  | nil => exact h
  | cons x xs ih =>
    rw [List.foldl_cons]
    exact ih (removeStep it acc x) (List.mem_append_left _ h)

theorem foldl_diffStep_deltas_mem (it : PyIter) (lib : BackupLibrary)
    (l : List SpotifyID) (acc : RunAcc) (d : PlaylistDelta)
    (h : d ∈ acc.deltas) :
    d ∈ (l.foldl (diffStep it lib) acc).deltas := by
  induction l generalizing acc with
  | nil => exact h
  | cons x xs ih =>
    rw [List.foldl_cons]
    refine ih (diffStep it lib acc x) ?_
    unfold diffStep
    split
    · exact List.mem_append_left _ h
    · exact h

theorem foldl_restoreStep_created (it : PyIter) (lib : BackupLibrary)
    (l : List SpotifyID) (acc : RunAcc) (h : l ≠ []) :
    ∃ d ∈ (l.foldl (restoreStep it lib) acc).deltas,
      d.mode = .CREATED := by
  match l with
  | [] => exact absurd rfl h
  | x :: xs =>
    rw [List.foldl_cons]
    refine ⟨(restorePlaylist it (backupOwnedLookup lib.owned x)
      acc.state).1, ?_, rfl⟩
    refine foldl_restoreStep_deltas_mem it lib xs _ _ ?_
    exact List.mem_append_right _ (List.mem_singleton.mpr rfl)

theorem removeStep_playlists_src (it : PyIter) (acc : RunAcc)
    (pid : SpotifyID) (q : FullPlaylistModel)
    (h : q ∈ (removeStep it acc pid).state.playlists) :
    q ∈ acc.state.playlists := by
  exact List.mem_of_mem_filter h

theorem foldl_removeStep_playlists_src (it : PyIter)
    (l : List SpotifyID) (acc : RunAcc) (q : FullPlaylistModel)
    (h : q ∈ ((l.foldl (removeStep it) acc).state).playlists) :
    q ∈ acc.state.playlists := by
  induction l generalizing acc with
  | nil => exact h
  | cons x xs ih =>
    rw [List.foldl_cons] at h
    exact removeStep_playlists_src it acc x q
      (ih (removeStep it acc x) h)

theorem restoreStep_playlists_src (it : PyIter) (lib : BackupLibrary)
    (acc : RunAcc) (pid : SpotifyID) (q : FullPlaylistModel)
    (h : q ∈ (restoreStep it lib acc pid).state.playlists) :
    q ∈ acc.state.playlists ∨ q.tracks = [] := by
  rcases List.mem_append.mp h with h1 | h1
  · exact Or.inl h1
  · right
    rcases List.mem_singleton.mp h1 with rfl
    rfl

theorem foldl_restoreStep_playlists_src (it : PyIter)
    (lib : BackupLibrary) (l : List SpotifyID) (acc : RunAcc)
    (q : FullPlaylistModel)
    (h : q ∈ ((l.foldl (restoreStep it lib) acc).state).playlists) :
    q ∈ acc.state.playlists ∨ q.tracks = [] := by
  induction l generalizing acc with
  | nil => exact Or.inl h
  | cons x xs ih =>
    rw [List.foldl_cons] at h
    rcases ih (restoreStep it lib acc x) h with h1 | h1
    · exact restoreStep_playlists_src it lib acc x q h1
    · exact Or.inr h1

theorem deserializePlaylists_savedTracks (it : PyIter) (hard : Bool)
    (lib : BackupLibrary) (s : SpotifyState) :
    ((deserializePlaylists it hard lib s).state).savedTracks =
      s.savedTracks := by
  cases hard <;>
    simp [deserializePlaylists, foldl_diffStep_state,
      foldl_removeStep_savedTracks, foldl_restoreStep_savedTracks,
      followAcc_state]

theorem deserializePlaylists_userId (it : PyIter) (hard : Bool)
    (lib : BackupLibrary) (s : SpotifyState) :
    ((deserializePlaylists it hard lib s).state).userId = s.userId := by
  cases hard <;>
    simp [deserializePlaylists, foldl_diffStep_state,
      foldl_removeStep_userId, foldl_restoreStep_userId,
      followAcc_state]

theorem deserializePlaylists_playlists_mem_soft (it : PyIter)
    (lib : BackupLibrary) (s : SpotifyState) (p : FullPlaylistModel)
    (h : p ∈ s.playlists) :
    p ∈ ((deserializePlaylists it false lib s).state).playlists := by
  simp only [deserializePlaylists, Bool.false_eq_true, if_false,
    foldl_diffStep_state]
  refine foldl_restoreStep_playlists_mem it lib _ _ p ?_
  rw [followAcc_state]
  exact h

theorem deserializePlaylists_trace_mem_soft (it : PyIter)
    (lib : BackupLibrary) (s : SpotifyState) (m : Mutation)
    (h : m ∈ (deserializePlaylists it false lib s).trace) :
    m.isDestructive = false := by
  simp only [deserializePlaylists, Bool.false_eq_true, if_false,
    foldl_diffStep_trace] at h
  rcases foldl_restoreStep_trace_mem it lib _ _ m h with h1 | h1
  · rw [followAcc_trace] at h1
    exact absurd h1 (List.not_mem_nil m)
  · exact h1

theorem deserializePlaylists_playlists_src (it : PyIter) (hard : Bool)
    (lib : BackupLibrary) (s : SpotifyState) (q : FullPlaylistModel)
    (h : q ∈ ((deserializePlaylists it hard lib s).state).playlists) :
    q ∈ s.playlists ∨ q.tracks = [] := by
  cases hard with
  | false =>
    simp only [deserializePlaylists, Bool.false_eq_true, if_false,
      foldl_diffStep_state] at h
    rcases foldl_restoreStep_playlists_src it lib _ _ q h with h1 | h1
    · rw [followAcc_state] at h1
      exact Or.inl h1
    · exact Or.inr h1
  | true =>
    simp only [deserializePlaylists, if_true,
      foldl_diffStep_state] at h
    rcases foldl_restoreStep_playlists_src it lib _ _ q
        (foldl_removeStep_playlists_src it _ _ q h) with h1 | h1
    · rw [followAcc_state] at h1
      exact Or.inl h1
    · exact Or.inr h1

theorem deserializePlaylists_created_delta (it : PyIter)
    (h : ValidSetIter it) (hard : Bool) (lib : BackupLibrary)
    (s : SpotifyState) (bp : BackupPlaylist) (hbp : bp ∈ lib.owned)
    (hid : bp.id ≠ s.userId) :
    ∃ d ∈ (deserializePlaylists it hard lib s).deltas,
      d.mode = .CREATED := by
  have hkey : bp.id ∈ backupOwnedKeysOf lib := by
    rw [backupOwnedKeysOf, List.mem_dedup]
    exact List.mem_map.mpr ⟨bp, hbp, rfl⟩
  have hnotlib : bp.id ∉ libraryOwnedIdsOf s := by
    intro hmem
    rw [libraryOwnedIdsOf, getLibraryPlaylists] at hmem
    rcases List.mem_map.mp hmem with ⟨p, hp, hpid⟩
    have hpd : p.id = s.userId := by
      have hf := List.of_mem_filter hp
      simpa using hf
    exact hid (hpid ▸ hpd)
  have hremoved : bp.id ∈ removedPlaylistIdsOf lib s :=
    List.mem_filter.mpr ⟨hkey, decide_eq_true hnotlib⟩
  have hiter : bp.id ∈ it (removedPlaylistIdsOf lib s) :=
    ((h _).2 _).mpr hremoved
  have hne : it (removedPlaylistIdsOf lib s) ≠ [] := by
    intro heq
    rw [heq] at hiter
    exact List.not_mem_nil _ hiter
  rcases foldl_restoreStep_created it lib
      (it (removedPlaylistIdsOf lib s)) (followAcc it hard lib s) hne
    with ⟨d, hd, hmode⟩
  refine ⟨d, ?_, hmode⟩
  cases hard with
  | false =>
    simp only [deserializePlaylists, Bool.false_eq_true, if_false]
    exact foldl_diffStep_deltas_mem it lib _ _ d hd
  | true =>
    simp only [deserializePlaylists, if_true]
    exact foldl_diffStep_deltas_mem it lib _ _ d
      (foldl_removeStep_deltas_mem it _ _ d hd)

theorem get_list_diff_mem (it : PyIter) (h : ValidSetIter it)
    (l1 l2 : List SpotifyID) (x : SpotifyID) :
    x ∈ get_list_diff it l1 l2 ↔ x ∈ l2 ∧ x ∉ l1 := by
  unfold get_list_diff
  rw [(h _).2]
  simp [List.mem_filter]

theorem get_list_diff_nodup (it : PyIter) (h : ValidSetIter it)
    (l1 l2 : List SpotifyID) : (get_list_diff it l1 l2).Nodup :=
  (h _).1

theorem get_list_diff_toFinset (it : PyIter) (h : ValidSetIter it)
    (l1 l2 : List SpotifyID) :
    (get_list_diff it l1 l2).toFinset = l2.toFinset \ l1.toFinset := by
  ext x
  rw [List.mem_toFinset, get_list_diff_mem it h, Finset.mem_sdiff,
    List.mem_toFinset, List.mem_toFinset]

/-- C1: for all ordered sequences `A` and `B` of track references,
the `Delta` construction (additions = `get_list_diff` on `A, B`;
deletions = `get_list_diff` on `B, A`) satisfies
`set(B) = (set(A) - deletions) ∪ additions`,
`set(A) = (set(B) - additions) ∪ deletions`, and
`additions ∩ deletions = ∅`, keyed as the code keys them. -/
theorem diff_set_equations (it : PyIter) (h : ValidSetIter it)
    (A B : List SpotifyID) :
    let d := mkDelta it { tracks := A } { tracks := B }
    B.toFinset = (A.toFinset \ d.deletions.toFinset) ∪
        d.additions.toFinset ∧
    A.toFinset = (B.toFinset \ d.additions.toFinset) ∪
        d.deletions.toFinset ∧
    d.additions.toFinset ∩ d.deletions.toFinset = ∅ := by
  intro d
  have hadd : d.additions.toFinset = B.toFinset \ A.toFinset :=
    get_list_diff_toFinset it h A B
  have hdel : d.deletions.toFinset = A.toFinset \ B.toFinset :=
    get_list_diff_toFinset it h B A
  rw [hadd, hdel]
  refine ⟨?_, ?_, ?_⟩
  · ext x
    simp only [Finset.mem_union, Finset.mem_sdiff]
    by_cases hA : x ∈ A.toFinset <;> by_cases hB : x ∈ B.toFinset <;>
      tauto
  · ext x
    simp only [Finset.mem_union, Finset.mem_sdiff]
    by_cases hA : x ∈ A.toFinset <;> by_cases hB : x ∈ B.toFinset <;>
      tauto
  · ext x
    simp only [Finset.mem_inter, Finset.mem_sdiff,
      Finset.not_mem_empty, iff_false]
    tauto

/-- Witness for `diff_set_equations` at a concrete enumeration and
concrete lists. -/
theorem diff_set_equations_witness :
    ValidSetIter dedupIter ∧
    (let d := mkDelta dedupIter { tracks := ["t2", "t3", "t4"] }
        { tracks := ["t1", "t2", "t3"] }
     ["t1", "t2", "t3"].toFinset =
        (["t2", "t3", "t4"].toFinset \ d.deletions.toFinset) ∪
          d.additions.toFinset ∧
     ["t2", "t3", "t4"].toFinset =
        (["t1", "t2", "t3"].toFinset \ d.additions.toFinset) ∪
          d.deletions.toFinset ∧
     d.additions.toFinset ∩ d.deletions.toFinset = ∅) :=
  ⟨dedupIter_valid,
   diff_set_equations dedupIter dedupIter_valid ["t2", "t3", "t4"]
     ["t1", "t2", "t3"]⟩

/-- C2 counterexample: the claim that additions come back in the
relative order of `after` (and deletions in the order of `before`) is
false: `revDedupIter` satisfies everything Python guarantees about set
iteration, yet on `before = []`, `after = ["b", "a"]` the additions
come back as `["a", "b"]`, not in the order of `after`. -/
theorem diff_order_preservation_false :
    ¬ ∀ (it : PyIter), ValidSetIter it → ∀ (A B : List SpotifyID),
      (get_list_diff it A B).Sublist B ∧
      (get_list_diff it B A).Sublist A := by
  intro hclaim
  have h := (hclaim revDedupIter revDedupIter_valid [] ["b", "a"]).1
  have hval : get_list_diff revDedupIter [] ["b", "a"] = ["a", "b"] :=
    by decide
  rw [hval] at h
  exact absurd h (by decide)

/-- C2 amended: the additions hold exactly the elements of `after`
absent from `before`, each exactly once, and symmetrically for the
deletions, but in an unspecified set-iteration order; no relative-order
guarantee with respect to `after` or `before` holds. -/
theorem diff_unordered_contents (it : PyIter) (h : ValidSetIter it)
    (A B : List SpotifyID) :
    (get_list_diff it A B).Nodup ∧
    (get_list_diff it B A).Nodup ∧
    (∀ x, x ∈ get_list_diff it A B ↔ x ∈ B ∧ x ∉ A) ∧
    (∀ x, x ∈ get_list_diff it B A ↔ x ∈ A ∧ x ∉ B) :=
  ⟨get_list_diff_nodup it h A B, get_list_diff_nodup it h B A,
   fun x => get_list_diff_mem it h A B x,
   fun x => get_list_diff_mem it h B A x⟩

/-- Witness for `diff_unordered_contents`. -/
theorem diff_unordered_contents_witness :
    ValidSetIter revDedupIter ∧
    ((get_list_diff revDedupIter [] ["b", "a"]).Nodup ∧
     (get_list_diff revDedupIter ["b", "a"] []).Nodup ∧
     (∀ x, x ∈ get_list_diff revDedupIter [] ["b", "a"] ↔
        x ∈ ["b", "a"] ∧ x ∉ ([] : List SpotifyID)) ∧
     (∀ x, x ∈ get_list_diff revDedupIter ["b", "a"] [] ↔
        x ∈ ([] : List SpotifyID) ∧ x ∉ ["b", "a"])) :=
  ⟨revDedupIter_valid,
   diff_unordered_contents revDedupIter revDedupIter_valid []
     ["b", "a"]⟩

theorem deserializeSavedSongs_soft_savedTracks_mem (it : PyIter)
    (lib : BackupLibrary) (s : SpotifyState) (t : SpotifyID)
    (ht : t ∈ s.savedTracks) :
    t ∈ ((deserializeSavedSongs it false lib s).2.1).savedTracks := by
  simp only [deserializeSavedSongs, Bool.false_eq_true, if_false,
    savedTracksAddApply]
  exact List.mem_append_right _ ht

theorem deserializeSavedSongs_hard_mem (it : PyIter)
    (h : ValidSetIter it) (lib : BackupLibrary) (s : SpotifyState)
    (x : SpotifyID) :
    x ∈ ((deserializeSavedSongs it true lib s).2.1).savedTracks ↔
      x ∈ lib.saved := by
  simp only [deserializeSavedSongs, if_true, savedTracksDeleteApply,
    savedTracksAddApply, getSavedTracksDiff, mkDelta, List.mem_filter,
    List.mem_append, decide_eq_true_eq, get_list_diff_mem it h]
  tauto

theorem deserializeSavedSongs_userId (it : PyIter) (hard : Bool)
    (lib : BackupLibrary) (s : SpotifyState) :
    ((deserializeSavedSongs it hard lib s).2.1).userId = s.userId := by
  cases hard <;> rfl

theorem deserializeSavedSongs_playlists (it : PyIter) (hard : Bool)
    (lib : BackupLibrary) (s : SpotifyState) :
    ((deserializeSavedSongs it hard lib s).2.1).playlists =
      s.playlists := by
  cases hard <;> rfl

theorem deserializeLibrary_state_eq (it : PyIter) (hard : Bool)
    (lib : BackupLibrary) (s : SpotifyState) :
    (deserializeLibrary it hard lib s).2.1 =
      (deserializePlaylists it hard lib
        (deserializeSavedSongs it hard lib s).2.1).state := rfl

theorem deserializeLibrary_trace_eq (it : PyIter) (hard : Bool)
    (lib : BackupLibrary) (s : SpotifyState) :
    (deserializeLibrary it hard lib s).2.2 =
      (deserializeSavedSongs it hard lib s).2.2 ++
        (deserializePlaylists it hard lib
          (deserializeSavedSongs it hard lib s).2.1).trace := rfl

theorem deserializeLibrary_userId (it : PyIter) (hard : Bool)
    (lib : BackupLibrary) (s : SpotifyState) :
    ((deserializeLibrary it hard lib s).2.1).userId = s.userId := by
  rw [deserializeLibrary_state_eq, deserializePlaylists_userId,
    deserializeSavedSongs_userId]

theorem deserializeLibrary_hard_savedTracks_mem (it : PyIter)
    (h : ValidSetIter it) (lib : BackupLibrary) (s : SpotifyState)
    (x : SpotifyID) :
    x ∈ ((deserializeLibrary it true lib s).2.1).savedTracks ↔
      x ∈ lib.saved := by
  rw [deserializeLibrary_state_eq, deserializePlaylists_savedTracks]
  exact deserializeSavedSongs_hard_mem it h lib s x

/-- C6: the claim says both sides classify a playlist as owned exactly
when its owner ID equals the current user ID.  The serializer does
(`owner_id == user_id`), but the reconciler compares the playlist's own
ID to the user ID (`full_playlist.id == user_id`): a playlist owned by
the current user (owner ID equal, playlist ID different) is classified
as followed by the reconciler. -/
theorem owned_classification_diverges :
    let user : SpotifyID := "alice"
    let p : FullPlaylistModel :=
      { id := "p1", name := "Mix", description := none, photo := none,
        tracks := [], ownerId := "alice" }
    let s : SpotifyState :=
      { userId := user, savedTracks := [], playlists := [p],
        freshIds := [] }
    p.ownerId = s.userId ∧
    serializePlaylistsPartition user [p] = ([p], []) ∧
    getLibraryPlaylists s = ([], [p]) := by
  decide

/-- C5: the structured document the serializer persists is never
accepted by the deserializer: the serializer writes the keys `user`,
`likedSongs`, `ownedPlaylists`, `followedPlaylists`, while the
deserializer looks up `saved` and `playlists`, so every read of a
serializer-written snapshot raises a `KeyError`. -/
theorem snapshot_document_rejected (lib : CollectedLibrary) :
    deserializerReadSaved (snapshotJson lib) =
      .error "KeyError: saved" ∧
    deserializerReadOwned (snapshotJson lib) =
      .error "KeyError: playlists" ∧
    deserializerReadFollowed (snapshotJson lib) =
      .error "KeyError: playlists" :=
  ⟨rfl, rfl, rfl⟩

/-- C4: in hard mode the run never completes a backup: `create_backup`
constructs `Serializer(spotify)` though `Serializer.__init__` requires
`with_images` as well, so the call raises `TypeError` and the whole
hard run aborts before the deserializer ever issues a mutation. -/
theorem hard_mode_backup_always_fails (it : PyIter)
    (lib : BackupLibrary) (s : SpotifyState) :
    deserializeCommand it true lib s =
      .error (.typeError "missing required positional argument") ∧
    ∀ r, deserializeCommand it true lib s ≠ .ok r := by
  refine ⟨rfl, ?_⟩
  intro r hr
  rw [show deserializeCommand it true lib s =
      .error (.typeError "missing required positional argument")
    from rfl] at hr
  exact Except.noConfusion hr

/-- C10: `Serializer.serialize` first calls
`output_dir.mkdir(exist_ok=True)` and then unconditionally
`output_dir.mkdir(parents=True)` without `exist_ok` on the same path,
so whenever the first call succeeds (the directory or its parent
already exists, as for the default location under the config
directory), the second call raises `FileExistsError` before any
snapshot data is collected or written. -/
theorem serialize_always_mkdir_conflict (fs : List DirPath)
    (out : DirPath) (withImages : Bool)
    (h : out ∈ fs ∨ parentDir out = [] ∨ parentDir out ∈ fs) :
    serializerSerialize fs out withImages = .error .fileExists := by
  by_cases h1 : out ∈ fs
  · have e1 : mkdir fs out false true = .ok fs := by
      simp [mkdir, h1]
    have e2 : mkdir fs out true false = .error .fileExists := by
      simp [mkdir, h1]
    simp [serializerSerialize, e1, e2]
  · have hp : parentDir out = [] ∨ parentDir out ∈ fs := by tauto
    have e1 : mkdir fs out false true = .ok (out :: fs) := by
      rcases hp with hp | hp <;> simp [mkdir, h1, hp]
    have e2 : mkdir (out :: fs) out true false = .error .fileExists := by
      simp [mkdir]
    simp [serializerSerialize, e1, e2]

/-- Witness for `serialize_always_mkdir_conflict`: serializing into a
fresh directory directly under the filesystem root. -/
theorem serialize_always_mkdir_conflict_witness :
    (["snapshot"] ∈ ([] : List DirPath) ∨
      parentDir ["snapshot"] = [] ∨
      parentDir ["snapshot"] ∈ ([] : List DirPath)) ∧
    serializerSerialize [] ["snapshot"] true = .error .fileExists :=
  ⟨Or.inr (Or.inl rfl),
   serialize_always_mkdir_conflict [] ["snapshot"] true
     (Or.inr (Or.inl rfl))⟩

/-- C3: after a soft (non-hard) reconciliation, every saved track and
every playlist present live beforehand is still present afterwards, and
no destructive mutation (saved-track delete or playlist unfollow) is
ever issued. -/
theorem soft_reconciliation_preserves (it : PyIter)
    (lib : BackupLibrary) (s : SpotifyState) :
    (∀ t ∈ s.savedTracks,
      t ∈ ((deserializeLibrary it false lib s).2.1).savedTracks) ∧
    (∀ p ∈ s.playlists,
      p ∈ ((deserializeLibrary it false lib s).2.1).playlists) ∧
    (∀ m ∈ (deserializeLibrary it false lib s).2.2,
      m.isDestructive = false) := by
  refine ⟨?_, ?_, ?_⟩
  · intro t ht
    rw [deserializeLibrary_state_eq, deserializePlaylists_savedTracks]
    exact deserializeSavedSongs_soft_savedTracks_mem it lib s t ht
  · intro p hp
    rw [deserializeLibrary_state_eq]
    refine deserializePlaylists_playlists_mem_soft it lib _ p ?_
    rw [deserializeSavedSongs_playlists]
    exact hp
  · intro m hm
    rw [deserializeLibrary_trace_eq] at hm
    rcases List.mem_append.mp hm with h1 | h1
    · have h2 : (deserializeSavedSongs it false lib s).2.2 =
          [Mutation.savedTracksAdd
            (getSavedTracksDiff it s lib).additions] := rfl
      rw [h2] at h1
      rcases List.mem_singleton.mp h1 with rfl
      rfl
    · exact deserializePlaylists_trace_mem_soft it lib _ m h1

/-- C7 counterexample: reconciling twice in a row against the same
snapshot is not idempotent.  A snapshot holding one owned playlist
`p1` against an initially empty live library: the first hard run
recreates `p1` under the fresh ID `q1`; the second run does not
recognize `q1` (matching is by playlist ID, and the classification uses
the playlist ID instead of the owner ID), so it records a dummy
`DELETED` follow delta for `q1` and another `CREATED` delta for `p1` —
the second delta is far from empty. -/
theorem second_reconciliation_noop_false :
    (deserializeLibrary dedupIter true
        { saved := [],
          owned := [{ id := "p1", name := "Mix", description := none,
                      photo := none, tracks := ["t1"] }],
          followed := [] }
        ((deserializeLibrary dedupIter true
          { saved := [],
            owned := [{ id := "p1", name := "Mix", description := none,
                        photo := none, tracks := ["t1"] }],
            followed := [] }
          { userId := "u", savedTracks := [], playlists := [],
            freshIds := ["q1", "q2"] }).2.1)).1.playlistDeltas.map
      (fun d => d.mode) = [.DELETED, .CREATED] := by
  decide

/-- C7 amended: the saved-songs side of a second hard run against the
same snapshot is indeed a no-op (its delta has empty additions and
deletions), but the playlist side is not idempotent: every owned
playlist of the snapshot (whose ID is not the user ID) yields a
`CREATED` delta again on the second run, because snapshot and live
playlists are matched purely by ID, recreation assigns a fresh ID, and
the owned classification compares the playlist ID to the user ID. -/
theorem second_reconciliation_behavior (it : PyIter)
    (h : ValidSetIter it) (lib : BackupLibrary) (s : SpotifyState) :
    ((deserializeLibrary it true lib
        ((deserializeLibrary it true lib s).2.1)).1.savedDelta.additions
      = [] ∧
     (deserializeLibrary it true lib
        ((deserializeLibrary it true lib s).2.1)).1.savedDelta.deletions
      = []) ∧
    (∀ bp ∈ lib.owned, bp.id ≠ s.userId →
      ∃ d ∈ (deserializeLibrary it true lib
        ((deserializeLibrary it true lib s).2.1)).1.playlistDeltas,
        d.mode = .CREATED) := by
  constructor
  · have hadds : ∀ x, x ∉ (deserializeLibrary it true lib
        ((deserializeLibrary it true lib s).2.1)).1.savedDelta.additions
      := by
      intro x hx
      have hmem := (get_list_diff_mem it h _ _ x).mp hx
      exact absurd hmem.1
        (fun hsaved => hmem.2
          ((deserializeLibrary_hard_savedTracks_mem it h lib s x).mpr
            hsaved))
    have hdels : ∀ x, x ∉ (deserializeLibrary it true lib
        ((deserializeLibrary it true lib s).2.1)).1.savedDelta.deletions
      := by
      intro x hx
      have hmem := (get_list_diff_mem it h _ _ x).mp hx
      exact absurd
        ((deserializeLibrary_hard_savedTracks_mem it h lib s x).mp
          hmem.1) hmem.2
    exact ⟨List.eq_nil_iff_forall_not_mem.mpr hadds,
      List.eq_nil_iff_forall_not_mem.mpr hdels⟩
  · intro bp hbp hid
    have h1 : (deserializeLibrary it true lib
        ((deserializeLibrary it true lib s).2.1)).1.playlistDeltas =
        (deserializePlaylists it true lib
          (deserializeSavedSongs it true lib
            ((deserializeLibrary it true lib s).2.1)).2.1).deltas := rfl
    rw [h1]
    refine deserializePlaylists_created_delta it h true lib _ bp hbp ?_
    rw [deserializeSavedSongs_userId, deserializeLibrary_userId]
    exact hid

/-- Witness for `second_reconciliation_behavior` at a concrete snapshot
and live library. -/
theorem second_reconciliation_behavior_witness :
    ValidSetIter dedupIter ∧
    (((deserializeLibrary dedupIter true
        { saved := ["a"],
          owned := [{ id := "p1", name := "Mix", description := none,
                      photo := none, tracks := ["t1"] }],
          followed := [] }
        ((deserializeLibrary dedupIter true
          { saved := ["a"],
            owned := [{ id := "p1", name := "Mix", description := none,
                        photo := none, tracks := ["t1"] }],
            followed := [] }
          { userId := "u", savedTracks := ["b"], playlists := [],
            freshIds := ["q1", "q2"] }).2.1)).1.savedDelta.additions
      = [] ∧
     (deserializeLibrary dedupIter true
        { saved := ["a"],
          owned := [{ id := "p1", name := "Mix", description := none,
                      photo := none, tracks := ["t1"] }],
          followed := [] }
        ((deserializeLibrary dedupIter true
          { saved := ["a"],
            owned := [{ id := "p1", name := "Mix", description := none,
                        photo := none, tracks := ["t1"] }],
            followed := [] }
          { userId := "u", savedTracks := ["b"], playlists := [],
            freshIds := ["q1", "q2"] }).2.1)).1.savedDelta.deletions
      = []) ∧
    (∀ bp ∈ ([{ id := "p1", name := "Mix", description := none,
                photo := none, tracks := ["t1"] }] : List BackupPlaylist),
      bp.id ≠ "u" →
      ∃ d ∈ (deserializeLibrary dedupIter true
        { saved := ["a"],
          owned := [{ id := "p1", name := "Mix", description := none,
                      photo := none, tracks := ["t1"] }],
          followed := [] }
        ((deserializeLibrary dedupIter true
          { saved := ["a"],
            owned := [{ id := "p1", name := "Mix", description := none,
                        photo := none, tracks := ["t1"] }],
            followed := [] }
          { userId := "u", savedTracks := ["b"], playlists := [],
            freshIds := ["q1", "q2"] }).2.1)).1.playlistDeltas,
        d.mode = .CREATED)) :=
  ⟨dedupIter_valid,
   second_reconciliation_behavior dedupIter dedupIter_valid
     { saved := ["a"],
       owned := [{ id := "p1", name := "Mix", description := none,
                   photo := none, tracks := ["t1"] }],
       followed := [] }
     { userId := "u", savedTracks := ["b"], playlists := [],
       freshIds := ["q1", "q2"] }⟩

/-- C8 counterexample: diff membership is keyed by the bare ID, not by
a type-qualified URI: a track and an episode sharing the bare ID `x`
produce identical saved-songs deltas (the diff cannot tell them apart),
and against a backup holding `x` both are reported unchanged instead of
as an addition/deletion pair. -/
theorem uri_keying_false :
    savedTracksDiffOfItems dedupIter
        [{ id := "x", type := .track, name := "Song" }] ["x"] =
      savedTracksDiffOfItems dedupIter
        [{ id := "x", type := .episode, name := "Pod" }] ["x"] ∧
    (savedTracksDiffOfItems dedupIter
        [{ id := "x", type := .episode, name := "Pod" }] ["x"]).additions
      = [] ∧
    (savedTracksDiffOfItems dedupIter
        [{ id := "x", type := .episode, name := "Pod" }] ["x"]).deletions
      = [] := by
  decide

/-- C8 amended: the diff is keyed by the bare resource ID only — name,
artists, timestamps and the track/episode type never participate: live
collections with the same ID projection yield identical deltas, and
membership in additions/deletions is characterized by bare-ID
membership. -/
theorem diff_keyed_by_bare_id (it : PyIter) (h : ValidSetIter it)
    (items1 items2 : List LiveSavedTrack) (backup : List SpotifyID)
    (hids : items1.map (fun t => t.id) = items2.map (fun t => t.id)) :
    savedTracksDiffOfItems it items1 backup =
      savedTracksDiffOfItems it items2 backup ∧
    (∀ x, x ∈ (savedTracksDiffOfItems it items1 backup).additions ↔
      x ∈ backup ∧ x ∉ items1.map (fun t => t.id)) ∧
    (∀ x, x ∈ (savedTracksDiffOfItems it items1 backup).deletions ↔
      x ∈ items1.map (fun t => t.id) ∧ x ∉ backup) := by
  refine ⟨?_, ?_, ?_⟩
  · unfold savedTracksDiffOfItems
    rw [hids]
  · intro x
    exact get_list_diff_mem it h _ _ x
  · intro x
    exact get_list_diff_mem it h _ _ x

/-- Witness for `diff_keyed_by_bare_id`: a track and an episode with
the same bare ID. -/
theorem diff_keyed_by_bare_id_witness :
    ValidSetIter dedupIter ∧
    (([{ id := "x", type := .track, name := "Song" }] :
        List LiveSavedTrack).map (fun t => t.id) =
      ([{ id := "x", type := .episode, name := "Pod" }] :
        List LiveSavedTrack).map (fun t => t.id)) ∧
    (savedTracksDiffOfItems dedupIter
        [{ id := "x", type := .track, name := "Song" }] ["x", "y"] =
      savedTracksDiffOfItems dedupIter
        [{ id := "x", type := .episode, name := "Pod" }] ["x", "y"] ∧
    (∀ x, x ∈ (savedTracksDiffOfItems dedupIter
        [{ id := "x", type := .track, name := "Song" }]
        ["x", "y"]).additions ↔
      x ∈ ["x", "y"] ∧ x ∉ ([{ id := "x", type := .track,
                                name := "Song" }] :
        List LiveSavedTrack).map (fun t => t.id)) ∧
    (∀ x, x ∈ (savedTracksDiffOfItems dedupIter
        [{ id := "x", type := .track, name := "Song" }]
        ["x", "y"]).deletions ↔
      x ∈ ([{ id := "x", type := .track,
                name := "Song" }] :
        List LiveSavedTrack).map (fun t => t.id) ∧
        x ∉ ["x", "y"])) :=
  ⟨dedupIter_valid, rfl,
   diff_keyed_by_bare_id dedupIter dedupIter_valid
     [{ id := "x", type := .track, name := "Song" }]
     [{ id := "x", type := .episode, name := "Pod" }] ["x", "y"] rfl⟩

/-- C9 counterexample: a `MODIFIED` delta is recorded although the
track additions and deletions are both empty (the two sides differ only
in name), and the track-level delta is never applied: a run whose only
playlist delta carries a non-empty deletions list leaves the live state
unchanged and issues no playlist mutation at all. -/
theorem modified_delta_claim_false :
    (getPlaylistDiff dedupIter
        { id := "p", name := "Old", description := none, photo := none,
          tracks := ["t"] }
        { id := "p", name := "New", description := none, photo := none,
          tracks := ["t"], ownerId := "u" }).map
      (fun d => (d.mode, d.delta.additions, d.delta.deletions)) =
      some (.MODIFIED, [], []) ∧
    ((deserializeLibrary dedupIter false
        { saved := [],
          owned := [{ id := "p", name := "Mix", description := none,
                      photo := none, tracks := ["t"] }],
          followed := [] }
        { userId := "p", savedTracks := [],
          playlists := [{ id := "p", name := "Mix",
                          description := none, photo := none,
                          tracks := ["t", "x"], ownerId := "p" }],
          freshIds := [] }).1.playlistDeltas.map
      (fun d => (d.mode, d.delta.additions, d.delta.deletions)) =
      [(.MODIFIED, [], ["x"])] ∧
     (deserializeLibrary dedupIter false
        { saved := [],
          owned := [{ id := "p", name := "Mix", description := none,
                      photo := none, tracks := ["t"] }],
          followed := [] }
        { userId := "p", savedTracks := [],
          playlists := [{ id := "p", name := "Mix",
                          description := none, photo := none,
                          tracks := ["t", "x"], ownerId := "p" }],
          freshIds := [] }).2.1 =
      { userId := "p", savedTracks := [],
        playlists := [{ id := "p", name := "Mix", description := none,
                        photo := none, tracks := ["t", "x"],
                        ownerId := "p" }],
        freshIds := [] } ∧
     (deserializeLibrary dedupIter false
        { saved := [],
          owned := [{ id := "p", name := "Mix", description := none,
                      photo := none, tracks := ["t"] }],
          followed := [] }
        { userId := "p", savedTracks := [],
          playlists := [{ id := "p", name := "Mix",
                          description := none, photo := none,
                          tracks := ["t", "x"], ownerId := "p" }],
          freshIds := [] }).2.2 = [.savedTracksAdd []]) := by
  decide

/-- C9 amended: for a playlist present on both sides, the reconciler
only computes the track-level delta — it never applies it (every
playlist in the post-run live state is either an untouched original or
a freshly created empty one) — and it records a `MODIFIED` delta iff
the backup and live sides differ in name, description, photo or exact
track sequence; in particular whenever the track sets differ, but also
when only metadata or track order/multiplicity differ. -/
theorem preserved_playlist_diff_behavior (it : PyIter)
    (bp : BackupPlaylist) (live : FullPlaylistModel) :
    (getPlaylistDiff it bp live = none ↔
      (bp.name = live.name ∧ bp.description = live.description ∧
       bp.photo = live.photo ∧ live.tracks = bp.tracks)) ∧
    (∀ d, getPlaylistDiff it bp live = some d →
      d.mode = .MODIFIED ∧
      d.delta.additions = get_list_diff it live.tracks bp.tracks ∧
      d.delta.deletions = get_list_diff it bp.tracks live.tracks) ∧
    (((∃ x, x ∈ bp.tracks ∧ x ∉ live.tracks) ∨
        (∃ x, x ∈ live.tracks ∧ x ∉ bp.tracks)) →
      getPlaylistDiff it bp live ≠ none) ∧
    (∀ (hard : Bool) (lib : BackupLibrary) (s : SpotifyState)
        (q : FullPlaylistModel),
      q ∈ ((deserializeLibrary it hard lib s).2.1).playlists →
      q ∈ s.playlists ∨ q.tracks = []) := by
  have hiff : getPlaylistDiff it bp live = none ↔
      (bp.name = live.name ∧ bp.description = live.description ∧
       bp.photo = live.photo ∧ live.tracks = bp.tracks) := by
    simp only [getPlaylistDiff]
    split
    next heq =>
      simp only [true_iff]
      rw [PlaylistState.mk.injEq] at heq
      simp only [Option.some.injEq] at heq
      exact ⟨heq.2.1, heq.2.2.1, heq.2.2.2.1, heq.2.2.2.2⟩
    next hne =>
      refine ⟨fun hsome => ?_, fun hfields => ?_⟩
      · exact absurd hsome (Option.some_ne_none _)
      · refine absurd ?_ hne
        rw [PlaylistState.mk.injEq]
        exact ⟨rfl, congrArg some hfields.1, hfields.2.1,
          hfields.2.2.1, hfields.2.2.2⟩
  refine ⟨hiff, ?_, ?_, ?_⟩
  · intro d hd
    simp only [getPlaylistDiff] at hd
    rcases hsplit : decide
        (({ id := some bp.id, name := some bp.name,
            description := bp.description, photo := bp.photo,
            tracks := live.tracks } : PlaylistState) =
          { id := some bp.id, name := some live.name,
            description := live.description, photo := live.photo,
            tracks := bp.tracks }) with _ | _
    · rw [if_neg (of_decide_eq_false hsplit)] at hd
      injection hd with hd
      subst hd
      exact ⟨rfl, rfl, rfl⟩
    · rw [if_pos (of_decide_eq_true hsplit)] at hd
      exact Option.noConfusion hd
  · intro hx hnone
    have hfields := hiff.mp hnone
    rcases hx with ⟨x, hx1, hx2⟩ | ⟨x, hx1, hx2⟩
    · exact hx2 (hfields.2.2.2 ▸ hx1)
    · exact hx2 (hfields.2.2.2.symm ▸ hx1)
  · intro hard lib s q hq
    rw [deserializeLibrary_state_eq] at hq
    rcases deserializePlaylists_playlists_src it hard lib _ q hq
      with h1 | h1
    · rw [deserializeSavedSongs_playlists] at h1
      exact Or.inl h1
    · exact Or.inr h1

end SpotifySerialize
